import Mathlib

/-!
Verification of the AllocationMemoryPool allocator (memory_pool.hpp /
memory_pool.cpp / memory_allocators.hpp / os_memory.hpp) against its
natural-language specification.

The development is a shallow embedding of the C++ sources:
 - pure helpers (`calculate_bucket_index`, `order_from_size`,
   `is_power_of_two`, the alignment-validation clause of
   `MemoryPool::allocate`) become Lean functions on `Nat`;
 - the tier managers become explicit state-passing functions over record
   states; memory is a total map from addresses (`Nat`) to header records,
   mirroring C++ where a header struct is read and written at an address,
   and the singly-linked free lists threaded through `next` pointers are
   represented as Lean lists of header addresses (a push that sets
   `header->next = head; head = header` is a cons, a segment splice that
   sets `tail->next = head; head = first` is an append);
 - loops become fuel-driven structural recursion with fuel chosen at the
   call site to dominate the loop bound (the fuel never runs out on the
   executions considered, which the correctness lemmas make precise);
 - a sequential (single-thread, uncontended) execution is modelled: every
   compare-and-swap succeeds with the value just loaded, which is exactly
   the behaviour of the C++ code in the absence of interference;
 - the build modelled is the release build (`_DEBUG` undefined) on an
   LP64 platform: `alignof(void*) = 8`, `sizeof(AlignHeader) = 24`,
   `sizeof(NotAlignHeader) = 16`, and every `alignas(64)` header struct
   has size 64;
 - the OS shim (`os_memory::allocate_tracked` / `deallocate_tracked` and
   the two process-wide counters) is declared and called by the sources
   but its definition is not among the repository files; it is modelled
   from the spec contract (section 6): page allocation returns null on
   refusal and the shim maintains `used_bytes` and `net_ops`.
-/

namespace AllocationMemoryPool

/-! ## Constants (memory_pool.hpp) -/

/-- CLASS_DEFAULT_ALIGNMENT = 64 (memory_pool.hpp line 36). -/
def CLASS_DEFAULT_ALIGNMENT : Nat := 64

/-- DEFAULT_ALIGNMENT = alignof(void*) = 8 on the LP64 targets the code
supports (memory_pool.hpp line 37). -/
def DEFAULT_ALIGNMENT : Nat := 8

/-- MIN_ALLOWED_ALIGNMENT = 2 (memory_pool.hpp line 38); also the default
argument of `MemoryPool::allocate`. -/
def MIN_ALLOWED_ALIGNMENT : Nat := 2

/-- MAX_ALLOWED_ALIGNMENT = 64 KiB (memory_pool.hpp line 39). -/
def MAX_ALLOWED_ALIGNMENT : Nat := 64 * 1024

/-- ALIGN_SENTINEL = 0xDEADBEEFCAFEBABE (memory_pool.hpp line 49). -/
def ALIGN_SENTINEL : Nat := 0xDEADBEEFCAFEBABE

/-- sizeof(AlignHeader) = 8 (u64 tag) + 8 (void* raw) + 8 (size_t size). -/
def ALIGN_HEADER_BYTES : Nat := 24

/-- sizeof(NotAlignHeader) = 4 (u32 owner_type) + padding + 8 (void* raw),
rounded to the 8-byte alignment of void*. -/
def NOT_ALIGN_HEADER_BYTES : Nat := 16

/-- SmallMemoryHeader::MAGIC, the four bytes SMHS (memory_pool.hpp line 71). -/
def SMALL_MAGIC : Nat := 0x534D4853

/-- MediumMemoryHeader::MAGIC, the four bytes MMHS (memory_pool.hpp line 88). -/
def MEDIUM_MAGIC : Nat := 0x4D4D4853

/-- LargeMemoryHeader::MAGIC, the four bytes LMHS (memory_pool.hpp line 105). -/
def LARGE_MAGIC : Nat := 0x4C4D4853

/-- HugeMemoryHeader::MAGIC, the four bytes HMHS (memory_pool.hpp line 117). -/
def HUGE_MAGIC : Nat := 0x484D4853

/-- sizeof of each alignas(64) header struct (Small/Medium/Large/Huge): the
members fit in one 64-byte unit, so sizeof is 64. -/
def HEADER_BYTES : Nat := 64

/-- MemoryPool::SMALL_BLOCK_MAX_SIZE = 1 MiB (memory_pool.hpp line 421). -/
def SMALL_BLOCK_MAX_SIZE : Nat := 1 * 1024 * 1024

/-- MemoryPool::MEDIUM_BLOCK_MAX_SIZE = 512 MiB (memory_pool.hpp line 422). -/
def MEDIUM_BLOCK_MAX_SIZE : Nat := 512 * 1024 * 1024

/-- MemoryPool::HUGE_BLOCK_THRESHOLD = 1 GiB (memory_pool.hpp line 423). -/
def HUGE_BLOCK_THRESHOLD : Nat := 1 * 1024 * 1024 * 1024

/-! ## SmallMemoryManager size-class table and bucket search -/

/-- SmallMemoryManager::BUCKET_SIZES, the 64-entry compile-time size-class
table (memory_pool.hpp line 137), copied verbatim. -/
def BUCKET_SIZES : List Nat :=
  [8, 16, 24, 32, 40, 48, 56, 64, 72, 80, 88, 96, 104, 112, 120, 128,
   136, 144, 152, 160, 168, 176, 184, 192, 200, 208, 216, 224, 232, 240, 248, 256,
   336, 432, 560, 728, 944, 1224, 1584, 2048, 2656, 3448, 4472, 5800,
   7520, 9744, 12640, 16384, 21248, 27560, 35736, 46344, 60104, 77936,
   101072, 131072, 169984, 220440, 285872, 370728, 480776, 623488, 808568, 1048576]

/-- BUCKET_SIZES[i] as the C++ array access (in the source every access is
in bounds; out-of-range reads default to 0). -/
def bucketSize (i : Nat) : Nat := BUCKET_SIZES.getD i 0

/-- The while loop of SmallMemoryManager::calculate_bucket_index
(memory_pool.hpp lines 172-181): binary search with
`middle = (low + high) >> 1`, moving `high := middle` when
`bytes <= BUCKET_SIZES[middle]` and `low := middle + 1` otherwise.
Fuel-driven; each iteration strictly shrinks `high - low`, so any fuel
above `high - low` reproduces the loop exactly. -/
def bucketSearch (fuel bytes low high : Nat) : Nat :=
  match fuel with
  | 0 => low
  | fuel + 1 =>
    if low < high then
      let middle := (low + high) / 2
      if bytes ≤ bucketSize middle then bucketSearch fuel bytes low middle
      else bucketSearch fuel bytes (middle + 1) high
    else low

/-- SmallMemoryManager::calculate_bucket_index (memory_pool.hpp lines
170-182): the loop starts at low = 0, high = BUCKET_COUNT - 1 = 63, and
64 > 63 - 0 units of fuel make the fuel inexhaustible. -/
def calculate_bucket_index (bytes : Nat) : Nat := bucketSearch 64 bytes 0 63

/-! ## MediumMemoryManager order computation -/

/-- MIN_BUCKET_BYTES_UNIT = 1 MiB (memory_pool.hpp line 194). -/
def MIN_BUCKET_BYTES_UNIT : Nat := 1048576

/-- LEVEL_COUNT = 10 (memory_pool.hpp line 195). -/
def LEVEL_COUNT : Nat := 10

/-- MediumMemoryManager::size_from_order (memory_pool.hpp line 253):
`MIN_BUCKET_BYTES_UNIT << order`. -/
def size_from_order (order : Nat) : Nat := MIN_BUCKET_BYTES_UNIT * 2 ^ order

/-- The while loop of MediumMemoryManager::order_from_size (memory_pool.hpp
lines 244-250): `while (cap < need && order < LEVEL_COUNT - 1) { cap <<= 1;
++order; }`. Fuel-driven; the loop body runs at most 9 times, so fuel 9 is
inexhaustible from order = 0. -/
def orderLoop (fuel need order cap : Nat) : Nat :=
  match fuel with
  | 0 => order
  | fuel + 1 =>
    if cap < need ∧ order < LEVEL_COUNT - 1 then orderLoop fuel need (order + 1) (cap * 2)
    else order

/-- MediumMemoryManager::order_from_size (memory_pool.hpp lines 238-252):
clamp `need` up to 1 MiB, then double `cap` from 1 MiB until it covers
`need` or order 9 is reached. -/
def order_from_size (actual_byte_size : Nat) : Nat :=
  orderLoop 9 (max actual_byte_size MIN_BUCKET_BYTES_UNIT) 0 MIN_BUCKET_BYTES_UNIT

/-! ## Alignment validation (release build) -/

/-- os_memory::memory_pool::is_power_of_two, release branch (memory_pool.hpp
lines 465-478, the branch compiled when _DEBUG is undefined): the source
tests `value != 1 || (value & (value - 1)) != 0` and returns false when the
test holds, so the function returns true only for value == 1.  On size_t,
`0 & (0 - 1)` is 0 by wraparound, and `Nat` gives the same value since
`0 - 1 = 0`. -/
def is_power_of_two (value : Nat) : Bool :=
  if value ≠ 1 ∨ value.land (value - 1) ≠ 0 then false else true

/-- The error a failed allocation surfaces as (std::bad_alloc). -/
inductive AllocError where
  | badAlloc
deriving Repr, DecidableEq

/-- The alignment-validation clause of MemoryPool::allocate (memory_pool.cpp
lines 806-816): when `(requested_alignment & 1) == 1` or
`!is_power_of_two(requested_alignment)`, throw bad_alloc if the alignment
exceeds MAX_ALLOWED_ALIGNMENT and nothrow is unset, and otherwise replace
any nonzero alignment by DEFAULT_ALIGNMENT (zero is left untouched by the
`requested_alignment > 0` guard). Returns the alignment the rest of
`allocate` runs with. -/
def normalize_alignment (requested_alignment : Nat) (nothrow : Bool) :
    Except AllocError Nat :=
  if requested_alignment.land 1 = 1 ∨ is_power_of_two requested_alignment = false then
    if requested_alignment > MAX_ALLOWED_ALIGNMENT ∧ nothrow = false then
      .error .badAlloc
    else if requested_alignment > 0 then
      .ok DEFAULT_ALIGNMENT
    else
      .ok requested_alignment
  else
    .ok requested_alignment

/-! ## OS shim (modelled from the spec) -/

/-- Modelled from the spec: the process-wide state of the OS shim, whose
definition (os_memory::allocate_tracked / deallocate_tracked and the
counters used_memory_bytes_counter / user_operation_counter) is declared
and called by the sources but is not among the repository files.  Spec
section 6: `used_bytes` and `net_ops` are "incremented/decremented by the
shim"; spec I6/I7 fix their meaning (sum of outstanding mapped bytes;
allocations minus deallocations).  `next_ptr` is the model's source of
fresh page addresses: each successful mapping is laid out at `next_ptr`
and advances it by the mapped size, so distinct live mappings never
overlap. -/
structure ShimState where
  used_bytes : Nat
  net_ops : Int
  next_ptr : Nat

/-- Modelled from the spec: os_memory::allocate_tracked(size, alignment).
`refuse` is the OS oracle — true models the kernel refusing the mapping,
in which case the shim returns null (`none`) and touches no counter (spec
section 7: out of memory is "never retried internally").  On success the
counters move by one whole mapping.  The alignment argument only selects
huge pages in the real shim and does not affect this model, so it is
omitted. -/
def allocate_tracked (refuse : Bool) (size : Nat) (st : ShimState) :
    Option Nat × ShimState :=
  if refuse then (none, st)
  else (some st.next_ptr,
        { used_bytes := st.used_bytes + size
          net_ops := st.net_ops + 1
          next_ptr := st.next_ptr + size })

/-- Modelled from the spec: os_memory::deallocate_tracked(pointer, size). -/
def deallocate_tracked (size : Nat) (st : ShimState) : ShimState :=
  { st with used_bytes := st.used_bytes - size, net_ops := st.net_ops - 1 }

/-- The shim state at process start: both counters zero; the model hands
out addresses from 4096 up (the zero page is never mapped, so address 0
can stand for the null pointer). -/
def initialShim : ShimState :=
  { used_bytes := 0, net_ops := 0, next_ptr := 4096 }

/-! ## SmallMemoryManager state -/

/-- SmallMemoryHeader (memory_pool.hpp lines 69-83) without the `next`
pointer: the lists it threads are represented as Lean lists of header
addresses in the manager state. `in_tls` is the uint8 flag read as a
boolean. -/
structure SmallMemoryHeader where
  magic : Nat
  bucket_index : Nat
  block_size : Nat
  is_free : Bool
  in_tls : Bool
deriving Repr, DecidableEq

/-- Memory before any write: fresh anonymous mappings are zero-filled, so a
header field the source never initialises (notably `in_tls` on a freshly
sliced chunk) reads 0. -/
def zeroSmallHeader : SmallMemoryHeader :=
  { magic := 0, bucket_index := 0, block_size := 0, is_free := false, in_tls := false }

/-- Write a small header at an address (memory is a total map, as in C++). -/
def setSmall (heap : Nat → SmallMemoryHeader) (a : Nat) (v : SmallMemoryHeader) :
    Nat → SmallMemoryHeader :=
  fun x => if x = a then v else heap x

/-- SmallMemoryManager plus the calling thread's thread_local_cache:
`tls i` / `global i` are the bucket-i free lists (head first, following
the `next` chain), `dealloc_counter` is thread_local_cache.
deallocation_counter, `chunks` is allocated_chunks. A sequential
execution by one thread is modelled, so one TLS cache suffices and every
compare-and-swap on a global bucket head succeeds with the value just
loaded. -/
structure SmallState where
  heap : Nat → SmallMemoryHeader
  tls : Nat → List Nat
  global : Nat → List Nat
  dealloc_counter : Nat
  chunks : List (Nat × Nat)

/-- The small manager at pool construction: all lists empty, memory zero. -/
def initialSmall : SmallState :=
  { heap := fun _ => zeroSmallHeader
    tls := fun _ => []
    global := fun _ => []
    dealloc_counter := 0
    chunks := [] }

/-- One iteration of the bucket loop of
SmallMemoryManager::flush_thread_local_cache (memory_pool.cpp lines
166-199).  An empty TLS bucket is skipped.  Otherwise the whole local
list is spliced in front of the global list in one tagged CAS
(`tail->next` is pointed at the old global head, so the spliced list is
`local ++ global`); the in_tls-clearing loop then walks the `next` chain
from the old local head, which after the splice runs through the old
global list as well, so it clears `in_tls` on every block of
`local ++ global`; finally the TLS head is nulled. -/
def smallFlushStep (s : SmallState) (i : Nat) : SmallState :=
  if s.tls i = [] then s
  else
    { s with
      tls := fun j => if j = i then [] else s.tls j
      global := fun j => if j = i then s.tls i ++ s.global i else s.global j
      heap := fun a => if a ∈ s.tls i ++ s.global i then { s.heap a with in_tls := false }
                       else s.heap a }

/-- The loop body of flush_thread_local_cache is `smallFlushStep`; the
function itself runs it over the 64 buckets and resets the counter. -/
def smallFlush (s : SmallState) : SmallState :=
  let s2 := (List.range 64).foldl smallFlushStep s
  { s2 with dealloc_counter := 0 }

/-- SmallMemoryManager::deallocate (memory_pool.cpp lines 135-160).
The is_free CAS from false to true fails on a double free (no-op); a set
in_tls flag is treated as a double reclamation (no-op; but note the CAS
has already flipped is_free); an invalid magic is logged and skipped;
otherwise the magic is zeroed, in_tls set, the block pushed onto the TLS
bucket of its class, and the 256th deallocation flushes the cache. -/
def smallDeallocate (s : SmallState) (header : Nat) : SmallState :=
  let hdr := s.heap header
  if hdr.is_free then s
  else
    let hdr1 := { hdr with is_free := true }
    let s1 := { s with heap := setSmall s.heap header hdr1 }
    if hdr1.in_tls then s1
    else if hdr1.magic ≠ SMALL_MAGIC then s1
    else
      let index := hdr1.bucket_index
      let s2 :=
        { s1 with
          heap := setSmall s1.heap header { hdr1 with magic := 0, in_tls := true }
          tls := fun j => if j = index then header :: s1.tls j else s1.tls j
          dealloc_counter := s1.dealloc_counter + 1 }
      if s2.dealloc_counter ≥ 256 then smallFlush s2 else s2

/-- SmallMemoryManager::allocate (memory_pool.cpp lines 14-132).  Three
stages: pop the TLS bucket head; else pop the global bucket head (tagged
CAS); else map a fresh chunk of `max(1 MiB, block_bytes * 128)` bytes,
record it in allocated_chunks, slice it into `chunk_size / block_bytes`
equal blocks laid out from the chunk base, push blocks 1.. onto the
global bucket as one spliced segment, and hand the caller block 0.
Returns `data()` = header address + HEADER_BYTES.  Stage 1 and 2 set
is_free := false and refresh the magic but do not touch `in_tls`
(faithful to the source, which never clears the flag on allocation).
On OS refusal the source throws std::bad_alloc — nothing is caught on
the way out. -/
def smallAllocate (refuse : Bool) (bytes : Nat) (s : SmallState) (sh : ShimState) :
    Except AllocError Nat × SmallState × ShimState :=
  let index := calculate_bucket_index bytes
  let bucket_bytes := bucketSize index
  match s.tls index with
  | header :: rest =>
    let hdr := s.heap header
    (.ok (header + HEADER_BYTES),
     { s with
       tls := fun j => if j = index then rest else s.tls j
       heap := setSmall s.heap header { hdr with is_free := false, magic := SMALL_MAGIC } },
     sh)
  | [] =>
    match s.global index with
    | candidate :: rest =>
      let hdr := s.heap candidate
      (.ok (candidate + HEADER_BYTES),
       { s with
         global := fun j => if j = index then rest else s.global j
         heap := setSmall s.heap candidate { hdr with is_free := false, magic := SMALL_MAGIC } },
       sh)
    | [] =>
      let block_bytes := HEADER_BYTES + bucket_bytes
      let chunk_size := max 1048576 (block_bytes * 128)
      match allocate_tracked refuse chunk_size sh with
      | (none, sh2) => (.error .badAlloc, s, sh2)
      | (some chunk, sh2) =>
        let s1 := { s with chunks := s.chunks ++ [(chunk, chunk_size)] }
        let block_count := chunk_size / block_bytes
        if block_count = 0 then
          (.error .badAlloc, s1, deallocate_tracked chunk_size sh2)
        else
          let blockAt := fun (i : Nat) => chunk + i * block_bytes
          let isBlock := fun (a : Nat) =>
            chunk ≤ a ∧ (a - chunk) % block_bytes = 0 ∧ (a - chunk) / block_bytes < block_count
          let heap1 := fun a =>
            if isBlock a then
              { s1.heap a with
                magic := SMALL_MAGIC, bucket_index := index
                block_size := bucket_bytes, is_free := true }
            else s1.heap a
          let tailIds := (List.range (block_count - 1)).map (fun i => blockAt (i + 1))
          let s2 :=
            { s1 with
              heap := setSmall heap1 chunk
                        { heap1 chunk with is_free := false, magic := SMALL_MAGIC }
              global := fun j => if j = index then tailIds ++ s1.global j else s1.global j }
          (.ok (chunk + HEADER_BYTES), s2, sh2)

/-- SmallMemoryManager::release_resources (memory_pool.cpp lines 204-221):
flush the calling thread's cache, return every recorded chunk to the OS,
clear the chunk registry and every global bucket head. -/
def smallReleaseResources (s : SmallState) (sh : ShimState) : SmallState × ShimState :=
  let s1 := smallFlush s
  let sh1 := s1.chunks.foldl (fun a c => deallocate_tracked c.2 a) sh
  ({ s1 with chunks := [], global := fun _ => [] }, sh1)

/-! ## MediumMemoryManager state -/

/-- MediumMemoryHeader (memory_pool.hpp lines 86-98) without the `next`
pointer (the free lists are kept as lists of header addresses). -/
structure MediumMemoryHeader where
  magic : Nat
  block_size : Nat
  is_free : Bool
deriving Repr, DecidableEq

/-- Zero-filled memory as the medium tier reads it. -/
def zeroMediumHeader : MediumMemoryHeader :=
  { magic := 0, block_size := 0, is_free := false }

/-- Write a medium header at an address. -/
def setMedium (heap : Nat → MediumMemoryHeader) (a : Nat) (v : MediumMemoryHeader) :
    Nat → MediumMemoryHeader :=
  fun x => if x = a then v else heap x

/-- MediumMemoryManager: `free_lists o` is order-o's tagged-pointer stack
(head first), `level_mask` the uint16 bitmask of non-empty orders,
`merge_queue` the pending MergeRequest ring buffer contents (head first),
`chunks` the allocated_chunks registry. Sequential execution: each CAS
succeeds with the value just loaded. -/
structure MediumState where
  heap : Nat → MediumMemoryHeader
  free_lists : Nat → List Nat
  level_mask : Nat
  merge_queue : List (Nat × Nat)
  chunks : List (Nat × Nat)

/-- The medium manager at pool construction. -/
def initialMedium : MediumState :=
  { heap := fun _ => zeroMediumHeader
    free_lists := fun _ => []
    level_mask := 0
    merge_queue := []
    chunks := [] }

/-- MediumMemoryManager::push_block (memory_pool.cpp lines 357-378): mark
the block free, cons it onto the order's list head by tagged CAS, then
set the order's bit in the level mask. -/
def mediumPushBlock (st : MediumState) (header : Nat) (order : Nat) : MediumState :=
  let st1 := { st with heap := setMedium st.heap header { st.heap header with is_free := true } }
  let st2 := { st1 with
               free_lists := fun o => if o = order then header :: st1.free_lists o
                                      else st1.free_lists o }
  { st2 with level_mask := st2.level_mask ||| (1 <<< order) }

/-- MediumMemoryManager::pop_block (memory_pool.cpp lines 380-417): pop the
order's head by tagged CAS; clear the order's mask bit when the pop
drained the list and also when the list was already empty. -/
def mediumPopBlock (st : MediumState) (order : Nat) : Option Nat × MediumState :=
  match st.free_lists order with
  | [] =>
    (none, { st with level_mask := st.level_mask &&& (65535 ^^^ (1 <<< order)) })
  | header :: rest =>
    let st1 := { st with
                 free_lists := fun o => if o = order then rest else st.free_lists o }
    let st2 :=
      if rest = [] then
        { st1 with level_mask := st1.level_mask &&& (65535 ^^^ (1 <<< order)) }
      else st1
    (some header, st2)

/-- MediumMemoryManager::try_remove_from_freelist (memory_pool.cpp lines
517-585).  When the target is the list head, the source computes
`PointerTag next { header->next, head.tag + 1 }` but then installs
`{ header, head.tag + 1 }` — the head pointer is left pointing at the
target, only the tag moves, and true is returned.  When the target sits
in the middle, the source walks the list and, on finding it, installs
`{ head.pointer, head.tag + 1 }` — again only the tag moves — and
returns true.  Only a target absent from the list yields false.  In this
sequential model the tag bump is invisible and the list is returned
unchanged in every case. -/
def try_remove_from_freelist (st : MediumState) (header : Nat) (order : Nat) :
    Bool × MediumState :=
  match st.free_lists order with
  | [] => (false, st)
  | head :: rest =>
    if head = header then (true, st)
    else if header ∈ rest then (true, st)
    else (false, st)

/-- The buddy-merge loop of MediumMemoryManager::try_merge_buddy
(memory_pool.cpp lines 471-513): while below the top order, locate the
buddy at offset `offset XOR size_from_order(order)` within the owning
chunk, stop when the buddy leaves the chunk, is not free, or is at a
different size; remove it from the free list (see
try_remove_from_freelist), recheck, merge at the lower address with
doubled size, and continue one order up.  The final block is pushed.
Fuel 9 dominates the loop (order rises to at most 9). -/
def tryMergeLoop (fuel : Nat) (st : MediumState) (block : Nat) (order : Nat)
    (chunk_base chunk_bytes : Nat) : MediumState :=
  match fuel with
  | 0 => mediumPushBlock st block order
  | fuel + 1 =>
    if order < LEVEL_COUNT - 1 then
      let offset := block - chunk_base
      let buddy_offset := offset ^^^ size_from_order order
      if buddy_offset + size_from_order order > chunk_bytes then
        mediumPushBlock st block order
      else
        let buddy := chunk_base + buddy_offset
        if (st.heap buddy).is_free = false ∨ (st.heap buddy).block_size ≠ size_from_order order then
          mediumPushBlock st block order
        else
          match try_remove_from_freelist st buddy order with
          | (false, st1) => mediumPushBlock st1 block order
          | (true, st1) =>
            if (st1.heap buddy).is_free = false ∨
               (st1.heap buddy).block_size ≠ size_from_order order then
              mediumPushBlock (mediumPushBlock st1 buddy order) block order
            else
              let merged := if offset < buddy_offset then block else buddy
              let st2 := { st1 with
                           heap := setMedium st1.heap merged
                             { st1.heap merged with block_size := size_from_order order * 2 } }
              tryMergeLoop fuel st2 merged (order + 1) chunk_base chunk_bytes
    else mediumPushBlock st block order

/-- MediumMemoryManager::try_merge_buddy (memory_pool.cpp lines 452-514):
find the owning chunk by linear scan of allocated_chunks (return doing
nothing when no chunk contains the block), then run the merge loop. -/
def try_merge_buddy (st : MediumState) (block : Nat) (order : Nat) : MediumState :=
  match st.chunks.find? (fun c => c.1 ≤ block ∧ block < c.1 + c.2) with
  | none => st
  | some c => tryMergeLoop 9 st block order c.1 c.2

/-- The descending split loop of MediumMemoryManager::split_to_order
(memory_pool.cpp lines 595-608): for current_order from from_order - 1
down to to_order, write the right half's header (half size, free, magic),
push it at current_order, and shrink the block to half.  The C++ loop
index is an int that may pass below zero; here the loop stops after the
current_order = 0 iteration, which is the same set of iterations. -/
def splitLoop (fuel : Nat) (st : MediumState) (block : Nat) (current to_order : Nat) :
    MediumState :=
  match fuel with
  | 0 => st
  | fuel + 1 =>
    if to_order ≤ current then
      let half := size_from_order current
      let right := block + half
      let st1 := { st with
                   heap := setMedium st.heap right
                     { magic := MEDIUM_MAGIC, block_size := half, is_free := true } }
      let st2 := mediumPushBlock st1 right current
      let st3 := { st2 with
                   heap := setMedium st2.heap block
                     { st2.heap block with block_size := half } }
      if current = 0 then st3 else splitLoop fuel st3 block (current - 1) to_order
    else st

/-- MediumMemoryManager::split_to_order (memory_pool.cpp lines 587-610):
guard degenerate arguments (to_order out of range or above from_order),
then run the split loop; the left block keeps its address.  Fuel 10
dominates (at most 10 iterations, orders 9 down to 0). -/
def split_to_order (st : MediumState) (block : Nat) (from_order to_order : Nat) :
    Nat × MediumState :=
  if to_order ≥ LEVEL_COUNT ∨ to_order > from_order then (block, st)
  else if from_order = 0 then (block, st)
  else (block, splitLoop 10 st block (from_order - 1) to_order)

/-- MediumMemoryManager::prepare_block (memory_pool.cpp lines 349-355). -/
def mediumPrepareBlock (st : MediumState) (block : Nat) (order : Nat) : MediumState :=
  { st with
    heap := setMedium st.heap block
      { magic := MEDIUM_MAGIC, block_size := size_from_order order, is_free := false } }

/-- MediumMemoryManager::request_new_chunk (memory_pool.cpp lines 612-632):
map `size_from_order(min_order)` bytes, record the chunk, and write a
free header covering the whole chunk at its base. -/
def mediumRequestNewChunk (refuse : Bool) (st : MediumState) (sh : ShimState)
    (min_order : Nat) : Option Nat × MediumState × ShimState :=
  let chunk_bytes := size_from_order min_order
  match allocate_tracked refuse chunk_bytes sh with
  | (none, sh2) => (none, st, sh2)
  | (some chunk, sh2) =>
    let st1 := { st with
                 chunks := st.chunks ++ [(chunk, chunk_bytes)]
                 heap := setMedium st.heap chunk
                   { magic := MEDIUM_MAGIC, block_size := chunk_bytes, is_free := true } }
    (some chunk, st1, sh2)

/-- The order scan of MediumMemoryManager::allocate (memory_pool.cpp lines
239-250 and again 276-287): for current_order from the target up to 9,
pop that order's list; on a hit, split down when the popped order is
higher, prepare the block at the target order and return it.  Fuel 10
dominates the scan. -/
def mediumScan (fuel : Nat) (st : MediumState) (want current : Nat) :
    Option (Nat × MediumState) :=
  match fuel with
  | 0 => none
  | fuel + 1 =>
    if current < LEVEL_COUNT then
      match mediumPopBlock st current with
      | (some block, st1) =>
        let r := if current > want then split_to_order st1 block current want
                 else (block, st1)
        some (r.1, mediumPrepareBlock r.2 r.1 want)
      | (none, st1) => mediumScan fuel st1 want (current + 1)
    else none

/-- MediumMemoryManager::allocate (memory_pool.cpp lines 228-303): compute
the target order; scan the free lists; else request a fresh chunk —
refusal throws std::bad_alloc.  With a fresh chunk in hand, consult the
level mask: non-zero means other blocks may exist, so the fresh chunk is
pushed and the scan redone (a failed rescan throws); a zero mask serves
the fresh chunk directly (`split_to_order(fresh, want, want)` is the
identity run of the split loop guard).  The source also counts occupied
levels into a local that it never reads; that has no effect and is not
modelled.  Returns `data()` = header address + HEADER_BYTES. -/
def mediumAllocate (refuse : Bool) (bytes : Nat) (st : MediumState) (sh : ShimState) :
    Except AllocError Nat × MediumState × ShimState :=
  let want := order_from_size bytes
  match mediumScan 10 st want want with
  | some r => (.ok (r.1 + HEADER_BYTES), r.2, sh)
  | none =>
    match mediumRequestNewChunk refuse st sh want with
    | (none, st1, sh2) => (.error .badAlloc, st1, sh2)
    | (some fresh, st1, sh2) =>
      if st1.level_mask ≠ 0 then
        let st2 := mediumPushBlock st1 fresh want
        match mediumScan 10 st2 want want with
        | some r => (.ok (r.1 + HEADER_BYTES), r.2, sh2)
        | none => (.error .badAlloc, st2, sh2)
      else
        let r := if want < LEVEL_COUNT - 1 then split_to_order st1 fresh want want
                 else (fresh, st1)
        (.ok (r.1 + HEADER_BYTES), mediumPrepareBlock r.2 r.1 want, sh2)

/-- MediumMemoryManager::deallocate (memory_pool.cpp lines 306-346): CAS
is_free from false to true (failure means double free, no-op), check the
magic (mismatch logged and skipped), recompute the order from the stored
size, then enqueue a MergeRequest — or, when the ring buffer is full
(127 pending requests), merge inline.  The detached merge worker drains
the queue asynchronously; the queue contents are kept in the state and
the worker is not modelled (concurrency), so a merely enqueued block is
still pending. -/
def mediumDeallocate (st : MediumState) (header : Nat) : MediumState :=
  let hdr := st.heap header
  if hdr.is_free then st
  else
    let st1 := { st with heap := setMedium st.heap header { hdr with is_free := true } }
    if hdr.magic ≠ MEDIUM_MAGIC then st1
    else
      let order := order_from_size hdr.block_size
      if st1.merge_queue.length + 1 ≥ 128 then try_merge_buddy st1 header order
      else { st1 with merge_queue := st1.merge_queue ++ [(header, order)] }

/-! ## LargeMemoryManager and HugeMemoryManager state -/

/-- LargeMemoryHeader / HugeMemoryHeader (memory_pool.hpp lines 103-125):
magic and payload size, no next pointer. -/
structure BigMemoryHeader where
  magic : Nat
  block_size : Nat
deriving Repr, DecidableEq

/-- Zero-filled memory as the large and huge tiers read it. -/
def zeroBigHeader : BigMemoryHeader := { magic := 0, block_size := 0 }

/-- Write a large or huge header at an address. -/
def setBig (heap : Nat → BigMemoryHeader) (a : Nat) (v : BigMemoryHeader) :
    Nat → BigMemoryHeader :=
  fun x => if x = a then v else heap x

/-- LargeMemoryManager (memory_pool.hpp lines 395-403): mutex-protected
vector of active header pointers. -/
structure LargeState where
  heap : Nat → BigMemoryHeader
  active_blocks : List Nat

/-- HugeMemoryManager (memory_pool.hpp lines 406-414): mutex-protected
vector of (base, total) pairs. -/
structure HugeState where
  heap : Nat → BigMemoryHeader
  active_blocks : List (Nat × Nat)

/-- The large manager at pool construction. -/
def initialLarge : LargeState := { heap := fun _ => zeroBigHeader, active_blocks := [] }

/-- The huge manager at pool construction. -/
def initialHuge : HugeState := { heap := fun _ => zeroBigHeader, active_blocks := [] }

/-- LargeMemoryManager::allocate (memory_pool.cpp lines 652-667): map
`sizeof(header) + bytes` from the OS — refusal throws std::bad_alloc —
write the header, record it, return `data()`. -/
def largeAllocate (refuse : Bool) (bytes : Nat) (st : LargeState) (sh : ShimState) :
    Except AllocError Nat × LargeState × ShimState :=
  let total := HEADER_BYTES + bytes
  match allocate_tracked refuse total sh with
  | (none, sh2) => (.error .badAlloc, st, sh2)
  | (some p, sh2) =>
    let st1 := { st with
                 heap := setBig st.heap p { magic := LARGE_MAGIC, block_size := bytes }
                 active_blocks := st.active_blocks ++ [p] }
    (.ok (p + HEADER_BYTES), st1, sh2)

/-- LargeMemoryManager::deallocate (memory_pool.cpp lines 669-686): verify
the magic (mismatch logged and skipped), zero it, drop the header from
the active list, unmap `sizeof(header) + block_size` bytes. -/
def largeDeallocate (st : LargeState) (sh : ShimState) (header : Nat) :
    LargeState × ShimState :=
  let hdr := st.heap header
  if hdr.magic ≠ LARGE_MAGIC then (st, sh)
  else
    let st1 := { st with
                 heap := setBig st.heap header { hdr with magic := 0 }
                 active_blocks := st.active_blocks.erase header }
    (st1, deallocate_tracked (HEADER_BYTES + hdr.block_size) sh)

/-- HugeMemoryManager::allocate (memory_pool.cpp lines 702-717): same as
large, with the (base, total) pair recorded. -/
def hugeAllocate (refuse : Bool) (bytes : Nat) (st : HugeState) (sh : ShimState) :
    Except AllocError Nat × HugeState × ShimState :=
  let total := HEADER_BYTES + bytes
  match allocate_tracked refuse total sh with
  | (none, sh2) => (.error .badAlloc, st, sh2)
  | (some p, sh2) =>
    let st1 := { st with
                 heap := setBig st.heap p { magic := HUGE_MAGIC, block_size := bytes }
                 active_blocks := st.active_blocks ++ [(p, total)] }
    (.ok (p + HEADER_BYTES), st1, sh2)

/-- HugeMemoryManager::deallocate (memory_pool.cpp lines 719-740): verify
and zero the magic, look the header up in the active list and unmap the
recorded total; a header not on the list is unmapped from its own size
field instead. -/
def hugeDeallocate (st : HugeState) (sh : ShimState) (header : Nat) :
    HugeState × ShimState :=
  let hdr := st.heap header
  if hdr.magic ≠ HUGE_MAGIC then (st, sh)
  else
    let st1 := { st with heap := setBig st.heap header { hdr with magic := 0 } }
    match st1.active_blocks.find? (fun r => r.1 = header) with
    | some r =>
      ({ st1 with active_blocks := st1.active_blocks.eraseP (fun q => q.1 = header) },
       deallocate_tracked r.2 sh)
    | none => (st1, deallocate_tracked (HEADER_BYTES + hdr.block_size) sh)

/-! ## MemoryPool dispatcher -/

/-- NotAlignHeader (memory_pool.hpp lines 58-62): the routing header the
dispatcher writes at the tier's data pointer. -/
structure NotAlignHeader where
  owner_type : Nat
  raw : Nat
deriving Repr, DecidableEq

/-- The MemoryPool object: the four managers, the shim, and the two header
kinds the dispatcher writes into memory — `routing a` is the
NotAlignHeader stored at address a (zero-filled memory reads
owner_type 0), `envelopes a` is `some (raw, size)` when an AlignHeader
whose tag equals ALIGN_SENTINEL is stored with its data pointer at a,
`none` when the 8 bytes at a - 24 are anything else. -/
structure PoolState where
  small : SmallState
  medium : MediumState
  large : LargeState
  huge : HugeState
  shim : ShimState
  routing : Nat → NotAlignHeader
  envelopes : Nat → Option (Nat × Nat)

/-- A freshly constructed MemoryPool over a fresh shim. -/
def initialPool : PoolState :=
  { small := initialSmall
    medium := initialMedium
    large := initialLarge
    huge := initialHuge
    shim := initialShim
    routing := fun _ => { owner_type := 0, raw := 0 }
    envelopes := fun _ => none }

/-- Round `a` up to a multiple of `align` (std::align on the envelope
path; the slack of `alignment - 1` spare bytes always suffices). -/
def alignUp (a align : Nat) : Nat :=
  if align = 0 then a else a + (align - a % align) % align

/-- MemoryPool::allocate (memory_pool.cpp lines 804-895), release build.
First the alignment-validation clause (`normalize_alignment`); a
normalized alignment above DEFAULT_ALIGNMENT would take the envelope
slow path (map `requested_bytes + alignment - 1 + ALIGN_HEADER_BYTES`
bytes straight from the OS — the source passes `requested_bytes` where
the shim expects the alignment — align the data pointer and write the
sentinel header before it; refusal honours nothrow here).  Otherwise the
fast path classifies `requested_bytes + NOT_ALIGN_HEADER_BYTES` against
the tier ceilings, calls the tier, writes the routing header at the
tier's data pointer with `raw` = data - sizeof(tier header), and returns
data + NOT_ALIGN_HEADER_BYTES.  A tier returning null would be turned
into nothrow-null or bad_alloc, but the tiers throw instead of returning
null, and a thrown bad_alloc propagates past this function — the model
keeps the `Except.error` regardless of nothrow, as the source does.
Result: `.ok (some p)` a user pointer, `.ok none` the nothrow null
return, `.error` a throw. -/
def poolAllocate (refuse : Bool) (requested_bytes requested_alignment : Nat)
    (nothrow : Bool) (st : PoolState) :
    Except AllocError (Option Nat) × PoolState :=
  match normalize_alignment requested_alignment nothrow with
  | .error e => (.error e, st)
  | .ok alignment =>
    if alignment > DEFAULT_ALIGNMENT then
      let extra := alignment - 1 + ALIGN_HEADER_BYTES
      let total := requested_bytes + extra
      match allocate_tracked refuse total st.shim with
      | (none, sh2) =>
        if nothrow then (.ok none, { st with shim := sh2 })
        else (.error .badAlloc, { st with shim := sh2 })
      | (some raw, sh2) =>
        let data_begin := raw + ALIGN_HEADER_BYTES
        let aligned := alignUp data_begin alignment
        (.ok (some aligned),
         { st with shim := sh2
                   envelopes := fun a => if a = aligned then some (raw, total)
                                         else st.envelopes a })
    else
      let total := requested_bytes + NOT_ALIGN_HEADER_BYTES
      let tier :
          Except AllocError Nat × PoolState × Nat :=
        if total ≤ SMALL_BLOCK_MAX_SIZE then
          let r := smallAllocate refuse total st.small st.shim
          (r.1, { st with small := r.2.1, shim := r.2.2 }, 1)
        else if total ≤ MEDIUM_BLOCK_MAX_SIZE then
          let r := mediumAllocate refuse total st.medium st.shim
          (r.1, { st with medium := r.2.1, shim := r.2.2 }, 2)
        else if total ≤ HUGE_BLOCK_THRESHOLD then
          let r := largeAllocate refuse total st.large st.shim
          (r.1, { st with large := r.2.1, shim := r.2.2 }, 3)
        else
          let r := hugeAllocate refuse total st.huge st.shim
          (r.1, { st with huge := r.2.1, shim := r.2.2 }, 4)
      match tier with
      | (.error e, st1, _) => (.error e, st1)
      | (.ok data, st1, owner) =>
        (.ok (some (data + NOT_ALIGN_HEADER_BYTES)),
         { st1 with
           routing := fun a => if a = data then { owner_type := owner, raw := data - HEADER_BYTES }
                               else st1.routing a })

/-- MemoryPool::deallocate (memory_pool.cpp lines 899-951), release build:
null is a no-op; an ALIGN_SENTINEL tag before the pointer releases the
enveloped raw block to the OS; otherwise the routing header's owner tag
dispatches to the tier with the stored raw block header; an unknown tag
falls through and (in release) returns without freeing. -/
def poolDeallocate (st : PoolState) (user_pointer : Nat) : PoolState :=
  if user_pointer = 0 then st
  else
    match st.envelopes user_pointer with
    | some rs =>
      { st with shim := deallocate_tracked rs.2 st.shim
                envelopes := fun a => if a = user_pointer then none else st.envelopes a }
    | none =>
      let hdr := st.routing (user_pointer - NOT_ALIGN_HEADER_BYTES)
      if hdr.owner_type = 1 then
        { st with small := smallDeallocate st.small hdr.raw }
      else if hdr.owner_type = 2 then
        { st with medium := mediumDeallocate st.medium hdr.raw }
      else if hdr.owner_type = 3 then
        let r := largeDeallocate st.large st.shim hdr.raw
        { st with large := r.1, shim := r.2 }
      else if hdr.owner_type = 4 then
        let r := hugeDeallocate st.huge st.shim hdr.raw
        { st with huge := r.1, shim := r.2 }
      else st

/-! ## SystemAllocator and PoolAllocator (memory_allocators.hpp) -/

/-- SystemAllocator state (memory_allocators.hpp lines 74-179): the
pointer → size map (association list; leak-detection mode off) over the
shim. -/
structure SystemAllocatorState where
  pointer_map : List (Nat × Nat)
  shim : ShimState

/-- SystemAllocator::allocate (memory_allocators.hpp lines 93-131).  A
zero size returns null at once — before the alignment fix-up, before
the shim is consulted, and without any throw even when nothrow is false.
The returned list records the sizes of the allocate_tracked calls the
run performed. -/
def systemAllocatorAllocate (refuse : Bool) (size alignment : Nat) (nothrow : Bool)
    (st : SystemAllocatorState) :
    Except AllocError (Option Nat) × SystemAllocatorState × List Nat :=
  if size = 0 then (.ok none, st, [])
  else
    let _alignment := if alignment = 0 then DEFAULT_ALIGNMENT else alignment
    match allocate_tracked refuse size st.shim with
    | (none, sh2) =>
      if nothrow = false then (.error .badAlloc, { st with shim := sh2 }, [size])
      else (.ok none, { st with shim := sh2 }, [size])
    | (some p, sh2) =>
      (.ok (some p),
       { st with shim := sh2, pointer_map := st.pointer_map ++ [(p, size)] },
       [size])

/-- PoolAllocator::allocate (memory_allocators.hpp lines 190-214).  A zero
size returns null before the MemoryPool is consulted and without any
state change or throw; the returned flag records whether
memory_pool_.allocate was invoked.  (Non-zero sizes delegate to the
pool; a null from the pool with nothrow unset re-throws.) -/
def poolAllocatorAllocate (refuse : Bool) (size alignment : Nat) (nothrow : Bool)
    (pool : PoolState) (mappings : List Nat) :
    Except AllocError (Option Nat) × PoolState × List Nat × Bool :=
  if size = 0 then (.ok none, pool, mappings, false)
  else
    match poolAllocate refuse size alignment nothrow pool with
    | (.error e, st1) => (.error e, st1, mappings, true)
    | (.ok none, st1) =>
      if nothrow = false then (.error .badAlloc, st1, mappings, true)
      else (.ok none, st1, mappings, true)
    | (.ok (some p), st1) => (.ok (some p), st1, mappings ++ [p], true)

/-! ## Correctness lemmas for the pure helpers -/

/-- The size-class table is strictly increasing (checked entry by entry). -/
theorem bucketSize_strict_mono : ∀ i j : Fin 64, i < j → bucketSize i.val < bucketSize j.val := by
  decide

/-- Monotonicity of the table on in-range indices. -/
theorem bucketSize_mono (i j : Nat) (hij : i ≤ j) (hj : j ≤ 63) :
    bucketSize i ≤ bucketSize j := by
  rcases Nat.eq_or_lt_of_le hij with h | h
  · exact h ▸ Nat.le_refl _
  · exact Nat.le_of_lt (bucketSize_strict_mono ⟨i, by omega⟩ ⟨j, by omega⟩ h)

/-- Invariant of the binary-search loop: started on a range whose right end
covers `bytes` and whose left end strictly dominates every smaller entry,
with enough fuel, it lands on the least index whose entry is ≥ `bytes`. -/
theorem bucketSearch_least (fuel : Nat) : ∀ bytes low high : Nat,
    high - low < fuel → low ≤ high → high ≤ 63 →
    bytes ≤ bucketSize high → (∀ j, j < low → bucketSize j < bytes) →
    low ≤ bucketSearch fuel bytes low high ∧
    bucketSearch fuel bytes low high ≤ high ∧
    bytes ≤ bucketSize (bucketSearch fuel bytes low high) ∧
    (∀ j, j < bucketSearch fuel bytes low high → bucketSize j < bytes) := by
  induction fuel with
  | zero => intro bytes low high hfuel; omega
  | succ fuel ih =>
    intro bytes low high hfuel hlh hhigh hub hlb
    simp only [bucketSearch]
    by_cases h : low < high
    · rw [if_pos h]
      by_cases hb : bytes ≤ bucketSize ((low + high) / 2)
      · rw [if_pos hb]
        have r := ih bytes low ((low + high) / 2) (by omega) (by omega) (by omega) hb hlb
        exact ⟨r.1, by omega, r.2.2⟩
      · rw [if_neg hb]
        have hlb2 : ∀ j, j < (low + high) / 2 + 1 → bucketSize j < bytes := by
          intro j hj
          rcases Nat.lt_or_ge j low with hc | hc
          · exact hlb j hc
          · have := bucketSize_mono j ((low + high) / 2) (by omega) (by omega)
            omega
        have r := ih bytes ((low + high) / 2 + 1) high (by omega) (by omega) hhigh hub hlb2
        exact ⟨by omega, r.2.1, r.2.2⟩
    · rw [if_neg h]
      have : low = high := by omega
      exact ⟨Nat.le_refl _, by omega, by rw [this]; exact hub, hlb⟩

/-- The invariant of the order-search loop of order_from_size: with enough
fuel it returns the least order whose capacity covers `need`, or 9. -/
theorem orderLoop_least (fuel : Nat) : ∀ need order : Nat,
    9 ≤ fuel + order → order ≤ 9 →
    (∀ j, j < order → size_from_order j < need) →
    order ≤ orderLoop fuel need order (size_from_order order) ∧
    orderLoop fuel need order (size_from_order order) ≤ 9 ∧
    (∀ j, j < orderLoop fuel need order (size_from_order order) → size_from_order j < need) ∧
    (need ≤ size_from_order (orderLoop fuel need order (size_from_order order)) ∨
      orderLoop fuel need order (size_from_order order) = 9) := by
  have hL : LEVEL_COUNT = 10 := rfl
  induction fuel with
  | zero =>
    intro need order hfuel horder hbelow
    have h9 : order = 9 := by omega
    simp only [orderLoop]
    exact ⟨Nat.le_refl _, by omega, hbelow, Or.inr h9⟩
  | succ fuel ih =>
    intro need order hfuel horder hbelow
    simp only [orderLoop]
    by_cases h : size_from_order order < need ∧ order < LEVEL_COUNT - 1
    · rw [if_pos h]
      have hcap : size_from_order order * 2 = size_from_order (order + 1) := by
        simp [size_from_order, Nat.pow_succ]; ring
      have hbelow2 : ∀ j, j < order + 1 → size_from_order j < need := by
        intro j hj
        rcases Nat.lt_or_ge j order with hc | hc
        · exact hbelow j hc
        · have : j = order := by omega
          exact this ▸ h.1
      have r := ih need (order + 1) (by omega) (by omega) hbelow2
      rw [hcap]
      exact ⟨by omega, r.2.1, r.2.2⟩
    · rw [if_neg h]
      rcases Decidable.not_and_iff_or_not.mp h with hc | hc
      · exact ⟨Nat.le_refl _, horder, hbelow, Or.inl (by omega)⟩
      · have : order = 9 := by omega
        exact ⟨Nat.le_refl _, horder, hbelow, Or.inr this⟩

/-! ## Free-list invariant (spec I2) -/

/-- The invariant of spec I2 as the small tier actually maintains it: every
block reachable from a TLS bucket or a global bucket is marked free, and
its magic word is either SMHS (a block freshly sliced from a chunk) or 0
(a block that went through deallocate, which zeroes the word). -/
def smallInv (s : SmallState) : Prop :=
  ∀ i id : Nat, (id ∈ s.tls i ∨ id ∈ s.global i) →
    (s.heap id).is_free = true ∧ ((s.heap id).magic = 0 ∨ (s.heap id).magic = SMALL_MAGIC)

/-- The invariant of spec I2 for the medium tier: every block reachable
from an order's free list is marked free and carries the MMHS magic. -/
def mediumInv (st : MediumState) : Prop :=
  ∀ o id : Nat, id ∈ st.free_lists o →
    (st.heap id).is_free = true ∧ (st.heap id).magic = MEDIUM_MAGIC

/-- One bucket's flush step preserves the small invariant: it only moves
whole lists and clears `in_tls`, never touching `is_free` or the magic. -/
theorem smallFlushStep_inv (s : SmallState) (i : Nat) (h : smallInv s) :
    smallInv (smallFlushStep s i) := by
  unfold smallFlushStep
  by_cases htls : s.tls i = []
  · simpa [htls] using h
  · rw [if_neg htls]
    intro j id hid
    simp only at hid
    have hmem : (id ∈ s.tls i ∨ id ∈ s.global i) ∨ (id ∈ s.tls j ∨ id ∈ s.global j) := by
      by_cases hji : j = i
      · subst hji
        rcases hid with hid | hid
        · simp at hid
        · simp only [if_pos rfl] at hid
          exact Or.inl (List.mem_append.mp hid)
      · rcases hid with hid | hid
        · right; left; simpa [hji] using hid
        · right; right; simpa [hji] using hid
    have base : (s.heap id).is_free = true ∧
        ((s.heap id).magic = 0 ∨ (s.heap id).magic = SMALL_MAGIC) := by
      rcases hmem with (hm | hm) | (hm | hm)
      · exact h i id (Or.inl hm)
      · exact h i id (Or.inr hm)
      · exact h j id (Or.inl hm)
      · exact h j id (Or.inr hm)
    by_cases hsp : id ∈ s.tls i ++ s.global i
    · simpa [hsp] using base
    · simpa [hsp] using base

/-- Folding the flush step over any bucket list preserves the invariant. -/
theorem smallInv_foldl (l : List Nat) : ∀ t : SmallState, smallInv t →
    smallInv (l.foldl smallFlushStep t) := by
  induction l with
  | nil => intro t ht; exact ht
  | cons x xs ih => intro t ht; exact ih _ (smallFlushStep_inv t x ht)

/-- Resetting the deallocation counter preserves the invariant. -/
theorem smallInv_counter_reset (t : SmallState) (h : smallInv t) :
    smallInv { t with dealloc_counter := 0 } := by
  intro i id hid
  exact h i id hid

/-- flush_thread_local_cache preserves the small free-list invariant. -/
theorem smallFlush_inv (s : SmallState) (h : smallInv s) : smallInv (smallFlush s) := by
  show smallInv { (List.range 64).foldl smallFlushStep s with dealloc_counter := 0 }
  exact smallInv_counter_reset _ (smallInv_foldl (List.range 64) s h)

/-- SmallMemoryManager::deallocate preserves the small free-list invariant:
a double free and an in-TLS refusal leave the lists alone (and only flip
`is_free` of a block that is on no list), and the push branch parks the
block with `is_free` true and magic zeroed. -/
theorem smallDeallocate_inv (s : SmallState) (b : Nat) (h : smallInv s) :
    smallInv (smallDeallocate s b) := by
  unfold smallDeallocate
  dsimp only []
  split_ifs with h1 h2 h3 h4
  · exact h
  · intro i id hm
    have hid : id ≠ b := fun heq => h1 (heq ▸ (h i id hm)).1
    simpa [setSmall, hid] using h i id hm
  · intro i id hm
    have hid : id ≠ b := fun heq => h1 (heq ▸ (h i id hm)).1
    simpa [setSmall, hid] using h i id hm
  · apply smallFlush_inv
    intro i id hm
    by_cases hid : id = b
    · subst hid
      simp [setSmall]
    · have hm2 : id ∈ s.tls i ∨ id ∈ s.global i := by
        rcases hm with hm | hm
        · by_cases hji : i = (s.heap b).bucket_index
          · rw [hji] at hm ⊢
            simp only [if_pos rfl] at hm
            rcases List.mem_cons.mp hm with hc | hc
            · exact absurd hc hid
            · exact Or.inl hc
          · simp only [hji, if_neg, ite_false] at hm
            exact Or.inl (by simpa [hji] using hm)
        · exact Or.inr hm
      simpa [setSmall, hid] using h i id hm2
  · intro i id hm
    by_cases hid : id = b
    · subst hid
      simp [setSmall]
    · have hm2 : id ∈ s.tls i ∨ id ∈ s.global i := by
        rcases hm with hm | hm
        · by_cases hji : i = (s.heap b).bucket_index
          · rw [hji] at hm ⊢
            simp only [if_pos rfl] at hm
            rcases List.mem_cons.mp hm with hc | hc
            · exact absurd hc hid
            · exact Or.inl hc
          · simp only [hji, if_neg, ite_false] at hm
            exact Or.inl (by simpa [hji] using hm)
        · exact Or.inr hm
      simpa [setSmall, hid] using h i id hm2

/-- MediumMemoryManager::push_block preserves the medium free-list
invariant, provided the pushed block carries the MMHS magic (which every
caller guarantees: deallocate checks it, split and chunk creation write
it). -/
theorem mediumPushBlock_inv (st : MediumState) (hdr o : Nat) (h : mediumInv st)
    (hmag : (st.heap hdr).magic = MEDIUM_MAGIC) : mediumInv (mediumPushBlock st hdr o) := by
  unfold mediumPushBlock
  dsimp only []
  intro o2 id hm
  by_cases hid : id = hdr
  · subst hid
    simp [setMedium, hmag]
  · have hm2 : id ∈ st.free_lists o2 := by
      by_cases ho : o2 = o
      · rw [ho] at hm ⊢
        simp only [if_pos rfl] at hm
        rcases List.mem_cons.mp hm with hc | hc
        · exact absurd hc hid
        · exact hc
      · simpa [ho] using hm
    simpa [setMedium, hid] using h o2 id hm2

/-! ## Concrete execution traces used by the claims -/

/-- The small manager after one allocation of 1040 bytes (1024 user bytes
plus the 16-byte routing header) from a fresh pool: bucket 37 (1224 B
payload), one fresh 1 MiB chunk at 4096 sliced into 814 blocks, block 0
(header address 4096) handed out, data pointer 4160. -/
def smallAfterRefill := smallAllocate false 1040 initialSmall initialShim

/-- The small manager after that block is deallocated: the block is parked
at the head of TLS bucket 37 with its magic zeroed. -/
def smallAfterFree : SmallState := smallDeallocate smallAfterRefill.2.1 4096

/-- The small manager allocating 1040 bytes again: a TLS hit returning the
same block — whose `in_tls` flag allocation never clears. -/
def smallRealloc := smallAllocate false 1040 smallAfterFree initialShim

/-- The small manager after the re-obtained block is deallocated again:
this is a first free of a live block, not a double free. -/
def smallAfterRefree : SmallState := smallDeallocate smallRealloc.2.1 4096

/-- A medium manager owning one 2 MiB chunk at 4096 holding two free
order-0 buddies at 4096 and 1052672, with only the buddy at 4096 linked
into the order-0 free list — the state in which the coalescer processes
a merge request for the block at 1052672. -/
def mediumTwoBuddies : MediumState :=
  { initialMedium with
    heap := setMedium
      (setMedium initialMedium.heap 4096
        { magic := MEDIUM_MAGIC, block_size := 1048576, is_free := true })
      1052672 { magic := MEDIUM_MAGIC, block_size := 1048576, is_free := true }
    free_lists := fun o => if o = 0 then [4096] else []
    level_mask := 1
    chunks := [(4096, 2097152)] }

/-- A medium manager holding one prepared (allocated, MMHS-tagged) block
at 4096 and empty free lists. -/
def mediumOneBlock : MediumState :=
  { initialMedium with
    heap := setMedium initialMedium.heap 4096
      { magic := MEDIUM_MAGIC, block_size := 1048576, is_free := false } }

/-- hugeAllocate on a fresh pool, evaluated: the mapping lands at 4096,
the data pointer is 4160, and the shim counters move by one mapping of
`sizeof(HugeMemoryHeader) + bytes + 16` bytes. -/
theorem hugeAllocate_on_fresh_pool (bytes : Nat) :
    hugeAllocate false (bytes + 16) initialPool.huge initialPool.shim =
    (.ok 4160,
     { heap := setBig initialHuge.heap 4096 { magic := HUGE_MAGIC, block_size := bytes + 16 },
       active_blocks := [(4096, HEADER_BYTES + (bytes + 16))] },
     { used_bytes := 0 + (HEADER_BYTES + (bytes + 16)), net_ops := 0 + 1,
       next_ptr := 4096 + (HEADER_BYTES + (bytes + 16)) }) := rfl

/-- hugeDeallocate of that block, evaluated: the magic is verified and
zeroed, the active list emptied, and the whole mapping returned to the
shim, cancelling the counters. -/
theorem hugeDeallocate_after_fresh_alloc (total : Nat) :
    hugeDeallocate
      { heap := setBig initialHuge.heap 4096 { magic := HUGE_MAGIC, block_size := total },
        active_blocks := [(4096, HEADER_BYTES + total)] }
      { used_bytes := 0 + (HEADER_BYTES + total), net_ops := 0 + 1,
        next_ptr := 4096 + (HEADER_BYTES + total) } 4096 =
    ({ heap := setBig (setBig initialHuge.heap 4096 { magic := HUGE_MAGIC, block_size := total })
                 4096 { magic := 0, block_size := total },
       active_blocks := [] },
     { used_bytes := 0 + (HEADER_BYTES + total) - (HEADER_BYTES + total),
       net_ops := 0 + 1 - 1,
       next_ptr := 4096 + (HEADER_BYTES + total) }) := by
  unfold hugeDeallocate
  dsimp only []
  rw [if_neg (by intro hc; exact hc rfl)]
  rw [show List.find? (fun r => decide (r.1 = 4096)) [((4096:Nat), HEADER_BYTES + total)]
        = some (4096, HEADER_BYTES + total) from rfl]
  rfl

/-! ## The claims -/

/-- Claim C1 (the code diverges from it): the claim says an OS-refused
mapping surfaces as a null return on the nothrow path in every size band,
with used_bytes and net_ops unchanged. In the source every tier manager
throws std::bad_alloc itself when os_memory::allocate_tracked returns
null (memory_pool.cpp lines 68, 255, 657, 707), before
MemoryPool::allocate's own null check (lines 883-888) can honour
nothrow, so allocate(…, nothrow=true) still throws in all four bands —
here evaluated at small (100 B), medium (2 MiB), large (512 MiB + 1) and
huge (8 GiB) requests against a refusing OS. The counters part does
hold: a refused attempt leaves used_bytes and net_ops at their prior
values. -/
theorem claim1_os_refusal_throws_despite_nothrow :
    (poolAllocate true 100 2 true initialPool).1 = .error .badAlloc ∧
    (poolAllocate true 2097152 2 true initialPool).1 = .error .badAlloc ∧
    (poolAllocate true 536870913 2 true initialPool).1 = .error .badAlloc ∧
    (poolAllocate true 8589934592 2 true initialPool).1 = .error .badAlloc ∧
    (poolAllocate true 8589934592 2 false initialPool).1 = .error .badAlloc ∧
    (poolAllocate true 8589934592 2 true initialPool).2.shim.used_bytes = 0 ∧
    (poolAllocate true 8589934592 2 true initialPool).2.shim.net_ops = 0 ∧
    (poolAllocate true 100 2 true initialPool).2.shim.used_bytes = 0 ∧
    (poolAllocate true 2097152 2 true initialPool).2.shim.used_bytes = 0 ∧
    (poolAllocate true 536870913 2 true initialPool).2.shim.used_bytes = 0 :=
  ⟨rfl, rfl, rfl, rfl, rfl, rfl, rfl, rfl, rfl, rfl⟩

/-- Claim C2 (the code diverges from it): the claim says an allocation
with a power-of-two alignment above the default and at most 64 KiB
returns a pointer aligned to it, preceded by a sentinel envelope, backed
by an OS block of size + A - 1 + sizeof(envelope) bytes. In the release
build, is_power_of_two accepts only the value 1 (its doc comment
promises a power-of-two check), so every such alignment — 64 here — is
silently replaced by DEFAULT_ALIGNMENT = 8; the request is served by the
small tier with a routing header (owner tag 1), no envelope is written,
and allocate(1024, 64) returns 4176, which is not even 64-byte aligned.
sizeof(AlignHeader) is moreover 24, not the 16 the claim states. -/
theorem claim2_aligned_request_bypasses_envelope :
    (∀ a : Nat, is_power_of_two a = true → a = 1) ∧
    is_power_of_two 64 = false ∧
    normalize_alignment 64 false = .ok 8 ∧
    (poolAllocate false 1024 64 false initialPool).1 = .ok (some 4176) ∧
    (poolAllocate false 1024 64 false initialPool).2.envelopes 4176 = none ∧
    ((poolAllocate false 1024 64 false initialPool).2.routing 4160).owner_type = 1 ∧
    4176 % 64 = 16 ∧
    ALIGN_HEADER_BYTES = 24 ∧
    ALIGN_SENTINEL = 0xDEADBEEFCAFEBABE := by
  refine ⟨?_, rfl, rfl, rfl, rfl, rfl, rfl, rfl, rfl⟩
  intro a ha
  unfold is_power_of_two at ha
  by_cases h : a ≠ 1 ∨ a.land (a - 1) ≠ 0
  · rw [if_pos h] at ha
    exact absurd ha (by simp)
  · push_neg at h
    exact h.1

/-- Claim C3 (the code diverges from it): the claim says invalid
alignments (0, non-power-of-two, above 64 KiB on the release path) are
replaced by the default pointer alignment, an alignment of 0 included,
while a power-of-two alignment at most 64 KiB is never altered. In the
release source: a valid power of two such as 64 IS altered (to
DEFAULT_ALIGNMENT = 8) because is_power_of_two accepts only 1; the
alignment 0 is NOT substituted (the `requested_alignment > 0` guard on
memory_pool.cpp line 812 skips it); and an alignment above 64 KiB with
nothrow unset throws instead of being silently clamped. A genuinely
non-power-of-two alignment such as 6 is clamped to the default, as
claimed. -/
theorem claim3_alignment_normalization_divergence :
    normalize_alignment 64 false = .ok DEFAULT_ALIGNMENT ∧
    normalize_alignment 64 true = .ok DEFAULT_ALIGNMENT ∧
    DEFAULT_ALIGNMENT ≠ 64 ∧
    normalize_alignment 0 false = .ok 0 ∧
    normalize_alignment 0 true = .ok 0 ∧
    normalize_alignment 70000 false = .error .badAlloc ∧
    normalize_alignment 70000 true = .ok DEFAULT_ALIGNMENT ∧
    normalize_alignment 6 false = .ok DEFAULT_ALIGNMENT ∧
    DEFAULT_ALIGNMENT = 8 :=
  ⟨rfl, rfl, by decide, rfl, rfl, rfl, rfl, rfl, rfl⟩

/-- Claim C4 (confirmed): for every request of b bytes with b ≤ 1 MiB,
calculate_bucket_index b is the least index whose table entry is ≥ b
(so a small-tier allocation of n bytes picks the smallest size class
≥ n + 16, the routing header being 16 bytes); the 64-entry table is
strictly increasing, its first 32 entries are 8, 16, …, 256 in steps of
8, and its last entry is exactly 1 MiB. -/
theorem claim4_size_class_selection_least (b : Nat) (hb : b ≤ 1048576) :
    (b ≤ bucketSize (calculate_bucket_index b) ∧
     (∀ j, j < calculate_bucket_index b → bucketSize j < b) ∧
     calculate_bucket_index b < 64) ∧
    (∀ i j : Fin 64, i < j → bucketSize i.val < bucketSize j.val) ∧
    (∀ i : Fin 32, bucketSize i.val = 8 * (i.val + 1)) ∧
    bucketSize 63 = 1048576 ∧
    NOT_ALIGN_HEADER_BYTES = 16 := by
  have h63 : bucketSize 63 = 1048576 := rfl
  have hc : calculate_bucket_index b = bucketSearch 64 b 0 63 := rfl
  have r := bucketSearch_least 64 b 0 63 (by omega) (by omega) (by omega) (by omega)
    (by intro j hj; omega)
  rw [hc]
  exact ⟨⟨r.2.2.1, r.2.2.2, by omega⟩, bucketSize_strict_mono, by decide, rfl, rfl⟩

/-- Witness for C4 at b = 1040 (a 1024-byte user request plus the 16-byte
routing header): the selected class covers the request. -/
theorem claim4_size_class_selection_witness :
    1040 ≤ bucketSize (calculate_bucket_index 1040) :=
  (claim4_size_class_selection_least 1040 (by decide)).1.1

/-- Claim C5 (the code diverges from it): the claim says a true return
from try_remove_from_freelist means the block is no longer reachable
from that order's free list, so the following buddy merge never merges a
still-linked block. In the source, the head case installs
{header, tag+1} — the computed next pointer is unused — and the middle
case installs {head, tag+1}; both leave the list intact yet return true.
Evaluated: on a list holding exactly the block 4096, removal returns
true with 4096 still the head; and the coalescer merging the buddy at
1052672 then produces a 2 MiB block at 4096 pushed onto the order-1 list
while 4096 is still on the order-0 list — a false merge leaving one
block reachable from two free lists at two different sizes. -/
theorem claim5_try_remove_leaves_block_linked :
    (try_remove_from_freelist mediumTwoBuddies 4096 0).1 = true ∧
    (try_remove_from_freelist mediumTwoBuddies 4096 0).2.free_lists 0 = [4096] ∧
    (try_merge_buddy mediumTwoBuddies 1052672 0).free_lists 0 = [4096] ∧
    (try_merge_buddy mediumTwoBuddies 1052672 0).free_lists 1 = [4096] ∧
    ((try_merge_buddy mediumTwoBuddies 1052672 0).heap 4096).block_size = 2097152 :=
  ⟨rfl, rfl, rfl, rfl, rfl⟩

/-- Counterexample to claim C6 as stated: after a small allocation and
deallocation from a fresh pool, the freed block parked on TLS bucket 37
is reachable from a free list but its magic word is 0, not SMHS —
SmallMemoryManager::deallocate zeroes the magic (memory_pool.cpp line
151) before parking the block. -/
theorem claim6_small_free_magic_zeroed_cex :
    4096 ∈ smallAfterFree.tls 37 ∧
    (smallAfterFree.heap 4096).is_free = true ∧
    (smallAfterFree.heap 4096).magic = 0 ∧
    (0 : Nat) ≠ SMALL_MAGIC := by
  refine ⟨?_, rfl, rfl, by decide⟩
  rw [show smallAfterFree.tls 37 = [4096] from rfl]
  exact List.mem_singleton.mpr rfl

/-- Claim C6 as amended: every operation preserves the invariant that a
block reachable from any free list has is_free = true, with magic MMHS
for medium blocks, and magic either SMHS (fresh from a chunk split) or 0
(zeroed by deallocate before parking) for small blocks. Shown for the
operations the claim names: SmallMemoryManager::deallocate,
flush_thread_local_cache, and MediumMemoryManager::push_block (whose
callers always supply an MMHS-tagged block). -/
theorem claim6_freelist_invariant_amended (s : SmallState) (st : MediumState)
    (b hdr o : Nat) (hs : smallInv s) (hm : mediumInv st)
    (hmag : (st.heap hdr).magic = MEDIUM_MAGIC) :
    smallInv (smallDeallocate s b) ∧ smallInv (smallFlush s) ∧
    mediumInv (mediumPushBlock st hdr o) :=
  ⟨smallDeallocate_inv s b hs, smallFlush_inv s hs, mediumPushBlock_inv st hdr o hm hmag⟩

/-- Witness for C6 at the fresh small manager and a one-block medium
manager. -/
theorem claim6_freelist_invariant_witness :
    smallInv (smallDeallocate initialSmall 4096) ∧ smallInv (smallFlush initialSmall) ∧
    mediumInv (mediumPushBlock mediumOneBlock 4096 0) :=
  claim6_freelist_invariant_amended initialSmall mediumOneBlock 4096 4096 0
    (fun i id hid => by
      rcases hid with hid | hid <;> exact absurd hid (List.not_mem_nil id))
    (fun o id hid => absurd hid (List.not_mem_nil id))
    rfl

/-- Counterexample to claim C7 as stated: the simplest round trip —
allocate(1024, default) then deallocate — does NOT return used_bytes to
0: the small tier keeps its 1 MiB chunk (deallocate only parks the block
in the TLS cache; memory_pool.cpp lines 135-160 call no OS release), so
used_bytes stays at 1048576 and net_ops at 1. -/
theorem claim7_small_round_trip_cex :
    (poolAllocate false 1024 2 false initialPool).1 = .ok (some 4176) ∧
    (poolDeallocate (poolAllocate false 1024 2 false initialPool).2 4176).shim.used_bytes
      = 1048576 ∧
    (poolDeallocate (poolAllocate false 1024 2 false initialPool).2 4176).shim.net_ops = 1 ∧
    (1048576 : Nat) ≠ 0 :=
  ⟨rfl, rfl, rfl, by decide⟩

set_option maxRecDepth 10000 in
/-- Claim C7 as amended: for huge-tier allocations (size + 16 above the
1 GiB threshold) a round trip does restore used_bytes and net_ops to
their pre-sequence values, because deallocation releases the mapping at
once; for the cached tiers the counters return to the pre-sequence value
only when the manager releases its resources — shown for the small tier:
releasing the small manager after the 1024-byte round trip returns
used_bytes and net_ops to 0. -/
theorem claim7_round_trip_amended (bytes : Nat)
    (hb : HUGE_BLOCK_THRESHOLD < bytes + NOT_ALIGN_HEADER_BYTES) :
    ((poolAllocate false bytes 2 false initialPool).1 = .ok (some 4176) ∧
     (poolDeallocate (poolAllocate false bytes 2 false initialPool).2 4176).shim.used_bytes
       = 0 ∧
     (poolDeallocate (poolAllocate false bytes 2 false initialPool).2 4176).shim.net_ops
       = 0) ∧
    ((smallReleaseResources
        (poolDeallocate (poolAllocate false 1024 2 false initialPool).2 4176).small
        (poolDeallocate (poolAllocate false 1024 2 false initialPool).2 4176).shim).2.used_bytes
       = 0 ∧
     (smallReleaseResources
        (poolDeallocate (poolAllocate false 1024 2 false initialPool).2 4176).small
        (poolDeallocate (poolAllocate false 1024 2 false initialPool).2 4176).shim).2.net_ops
       = 0) := by
  have hT : HUGE_BLOCK_THRESHOLD = 1073741824 := rfl
  have hN : NOT_ALIGN_HEADER_BYTES = 16 := rfl
  rw [hT, hN] at hb
  have h1 : ¬ (bytes + 16 ≤ SMALL_BLOCK_MAX_SIZE) := by
    have : SMALL_BLOCK_MAX_SIZE = 1048576 := rfl
    omega
  have h2 : ¬ (bytes + 16 ≤ MEDIUM_BLOCK_MAX_SIZE) := by
    have : MEDIUM_BLOCK_MAX_SIZE = 536870912 := rfl
    omega
  have h3 : ¬ (bytes + 16 ≤ HUGE_BLOCK_THRESHOLD) := by omega
  have hnorm : normalize_alignment 2 false = .ok DEFAULT_ALIGNMENT := rfl
  refine ⟨?_, rfl, rfl⟩
  unfold poolAllocate
  rw [hnorm]
  dsimp only []
  rw [if_neg (by simp [DEFAULT_ALIGNMENT])]
  rw [hN, if_neg h1, if_neg h2, if_neg h3]
  rw [hugeAllocate_on_fresh_pool bytes]
  refine ⟨rfl, ?_, ?_⟩
  · unfold poolDeallocate
    dsimp only []
    rw [if_neg (by decide)]
    rw [show initialPool.envelopes 4176 = none from rfl]
    dsimp only []
    rw [show (4176 - NOT_ALIGN_HEADER_BYTES : Nat) = 4160 from rfl]
    rw [if_pos (rfl : (4160:Nat) = 4160)]
    dsimp only []
    rw [if_neg (by decide), if_neg (by decide), if_neg (by decide), if_pos rfl]
    rw [show (4160 - HEADER_BYTES : Nat) = 4096 from rfl]
    rw [hugeDeallocate_after_fresh_alloc (bytes + 16)]
    show 0 + (HEADER_BYTES + (bytes + 16)) - (HEADER_BYTES + (bytes + 16)) = 0
    omega
  · unfold poolDeallocate
    dsimp only []
    rw [if_neg (by decide)]
    rw [show initialPool.envelopes 4176 = none from rfl]
    dsimp only []
    rw [show (4176 - NOT_ALIGN_HEADER_BYTES : Nat) = 4160 from rfl]
    rw [if_pos (rfl : (4160:Nat) = 4160)]
    dsimp only []
    rw [if_neg (by decide), if_neg (by decide), if_neg (by decide), if_pos rfl]
    rw [show (4160 - HEADER_BYTES : Nat) = 4096 from rfl]
    rw [hugeDeallocate_after_fresh_alloc (bytes + 16)]
    show (0 : Int) + 1 - 1 = 0
    decide

/-- Witness for C7 at a 2 GiB request. -/
theorem claim7_round_trip_witness :
    ((poolAllocate false 2147483648 2 false initialPool).1 = .ok (some 4176) ∧
     (poolDeallocate (poolAllocate false 2147483648 2 false initialPool).2 4176).shim.used_bytes
       = 0 ∧
     (poolDeallocate (poolAllocate false 2147483648 2 false initialPool).2 4176).shim.net_ops
       = 0) ∧
    ((smallReleaseResources
        (poolDeallocate (poolAllocate false 1024 2 false initialPool).2 4176).small
        (poolDeallocate (poolAllocate false 1024 2 false initialPool).2 4176).shim).2.used_bytes
       = 0 ∧
     (smallReleaseResources
        (poolDeallocate (poolAllocate false 1024 2 false initialPool).2 4176).small
        (poolDeallocate (poolAllocate false 1024 2 false initialPool).2 4176).shim).2.net_ops
       = 0) :=
  claim7_round_trip_amended 2147483648 (by decide)

/-- Claim C8 (the code diverges from it): the claim says every small
block returned by allocate and freed for the first time is parked on the
TLS bucket with magic zeroed and in_tls set, and only a second free is a
silent no-op. The first free behaves exactly as claimed; but allocation
from the TLS cache (memory_pool.cpp lines 20-26) never clears in_tls, so
when the SAME block is returned again and the caller frees it — a first
free of a live allocation, not a double free — deallocate flips is_free
and then returns at the in_tls check (line 141): the block is pushed to
no list, its magic stays SMHS, and it is lost to the allocator. -/
theorem claim8_tls_refree_drops_block :
    smallAfterRefill.1 = .ok 4160 ∧
    ((smallAfterFree.heap 4096).is_free = true ∧
     (smallAfterFree.heap 4096).in_tls = true ∧
     (smallAfterFree.heap 4096).magic = 0 ∧
     smallAfterFree.tls 37 = [4096]) ∧
    (smallRealloc.1 = .ok 4160 ∧
     (smallRealloc.2.1.heap 4096).is_free = false ∧
     (smallRealloc.2.1.heap 4096).in_tls = true) ∧
    (smallAfterRefree.tls 37 = [] ∧
     (smallAfterRefree.heap 4096).is_free = true ∧
     (smallAfterRefree.heap 4096).in_tls = true ∧
     (smallAfterRefree.heap 4096).magic = SMALL_MAGIC ∧
     smallAfterRefree.global 37 = smallRealloc.2.1.global 37) :=
  ⟨rfl, ⟨rfl, rfl, rfl, rfl⟩, ⟨rfl, rfl, rfl⟩, ⟨rfl, rfl, rfl, rfl, rfl⟩⟩

/-- Claim C9 (confirmed): order_from_size s is the least order k ≤ 9 with
1 MiB · 2^k ≥ s — equivalently ⌈log₂(max(s, 1 MiB) / 1 MiB)⌉ clamped to
[0, 9] — and 9 when no order suffices: the result is at most 9, every
smaller order's capacity falls short of s, and the result's capacity
covers s unless the result is the clamp value 9. -/
theorem claim9_order_from_size_least (s : Nat) :
    order_from_size s ≤ 9 ∧
    (∀ j, j < order_from_size s → size_from_order j < s) ∧
    (s ≤ size_from_order (order_from_size s) ∨ order_from_size s = 9) := by
  have h0 : size_from_order 0 = MIN_BUCKET_BYTES_UNIT := by simp [size_from_order]
  have hr : order_from_size s =
      orderLoop 9 (max s MIN_BUCKET_BYTES_UNIT) 0 (size_from_order 0) := by
    rw [h0]; rfl
  have r := orderLoop_least 9 (max s MIN_BUCKET_BYTES_UNIT) 0 (by omega) (by omega)
      (by intro j hj; omega)
  rw [hr]
  refine ⟨r.2.1, ?_, ?_⟩
  · intro j hj
    have hlt := r.2.2.1 j hj
    have hle : MIN_BUCKET_BYTES_UNIT ≤ size_from_order j := by
      have h1 : 1 ≤ 2 ^ j := Nat.one_le_two_pow
      calc MIN_BUCKET_BYTES_UNIT = MIN_BUCKET_BYTES_UNIT * 1 := by ring
        _ ≤ MIN_BUCKET_BYTES_UNIT * 2 ^ j := Nat.mul_le_mul_left _ h1
        _ = size_from_order j := rfl
    omega
  · rcases r.2.2.2 with hle | h9
    · exact Or.inl (by omega)
    · exact Or.inr h9

/-- Claim C10 (confirmed): SystemAllocator::allocate and
PoolAllocator::allocate called with size 0 return null immediately — no
OS shim call is made, the MemoryPool is not consulted, the allocator
state is untouched, and no exception is thrown even with nothrow =
false, for every refusal behaviour of the OS. -/
theorem claim10_zero_size_returns_null (refuse : Bool) (alignment : Nat) (nothrow : Bool)
    (st : SystemAllocatorState) (pool : PoolState) (m : List Nat) :
    systemAllocatorAllocate refuse 0 alignment nothrow st = (.ok none, st, []) ∧
    poolAllocatorAllocate refuse 0 alignment nothrow pool m = (.ok none, pool, m, false) :=
  ⟨rfl, rfl⟩

end AllocationMemoryPool
